import Mathlib

/-!
Verification of the order lifecycle and payment settlement engine of the
mgkw platform backend.  The Lean definitions below are shallow embeddings of
the Python source: database tables become lists of records, stateful service
methods become explicit state-passing functions, raised exceptions become
`Except.error`, and enum fields become inductive types.
-/

namespace Mgkw

/-- Order lifecycle states, from `OrderStatus` in
`application/common/models/order.py`. -/
inductive OrderStatus where
  | pending
  | paid
  | cancelled
  | timeoutClosed
deriving DecidableEq

/-- One purchased line inside an order, from `OrderItem` in
`application/common/models/order.py` (fields the payment flow reads). -/
structure OrderItemRec where
  id : Nat
  orderId : Nat
  itemType : String
  productId : Nat
  skuId : Option Nat
deriving DecidableEq

/-- An order row together with its (immutable) order items, as assembled by
`OrderService.get_order_detail`.  Times are abstract instants (`Nat`). -/
structure Order where
  id : Nat
  userId : Nat
  status : OrderStatus
  payTime : Option Nat
  expireTime : Option Nat
  paymentType : String
  merchantOrderNo : String
  items : List OrderItemRec
deriving DecidableEq

/-- Update every element satisfying `p` with `f`; models `update_by_id`-style
keyed writes against a table held as a list. -/
def updateWhere (l : List α) (p : α → Bool) (f : α → α) : List α :=
  l.map fun x => if p x then f x else x

/-- Database lookup of an order by primary key (`get_by_id`). -/
def findOrder (orders : List Order) (orderId : Nat) : Option Order :=
  orders.find? fun o => o.id == orderId

/-- `OrderService.update_by_id` on the orders table. -/
def updateOrderById (orders : List Order) (orderId : Nat) (f : Order → Order) :
    List Order :=
  updateWhere orders (fun o => o.id == orderId) f

/-- The database path of `OrderService.get_order_detail`: the guard for a
requested ownership check without a user id, the `get_by_id` read, the
missing-order and ownership exceptions, and the detail assembly.  The Redis
cache-read branch in front of it is modelled by `getOrderDetail` below,
which threads the order-detail cache explicitly. -/
def getOrderDetailDb (orders : List Order) (orderId : Nat)
    (userId : Option Nat) (checkUserOwnership : Bool) : Except String Order :=
  if checkUserOwnership && userId.isNone then
    .error "ValueError: user_id required"
  else
    match findOrder orders orderId with
    | none => .error "order does not exist"
    | some o =>
      if checkUserOwnership && !(userId == some o.userId) then
        .error "no permission to access this order"
      else
        .ok o

/-- The Redis order-detail cache (`order_detail:item:{orderId}`), held as an
association list from order id to the cached detail snapshot; an absent key
also models an expired entry. -/
def cacheGet (cache : List (Nat × Order)) (orderId : Nat) : Option Order :=
  (cache.find? (fun e => e.1 == orderId)).map (fun e => e.2)

/-- `redis_client.set` on the order-detail cache: replace-or-insert. -/
def cacheSet (cache : List (Nat × Order)) (orderId : Nat) (o : Order) :
    List (Nat × Order) :=
  (orderId, o) :: cache.filter (fun e => e.1 != orderId)

/-- `redis_client.delete` on the order-detail cache. -/
def cacheDelete (cache : List (Nat × Order)) (orderId : Nat) :
    List (Nat × Order) :=
  cache.filter (fun e => e.1 != orderId)

/-- `OrderService.get_order_detail` in full: after the guard, a cache hit is
checked for ownership and returned as it was cached, without a database
read; on a miss the database path runs and its result is written to the
cache (cached entries are taken as well-formed, so the parse-failure
fallback does not fire).  Returns the detail together with the cache after
the call. -/
def getOrderDetail (cache : List (Nat × Order)) (orders : List Order)
    (orderId : Nat) (userId : Option Nat) (checkUserOwnership : Bool) :
    Except String (Order × List (Nat × Order)) :=
  if checkUserOwnership && userId.isNone then
    .error "ValueError: user_id required"
  else
    match cacheGet cache orderId with
    | some detail =>
      if checkUserOwnership && !(userId == some detail.userId) then
        .error "no permission to access this order"
      else
        .ok (detail, cache)
    | none =>
      match findOrder orders orderId with
      | none => .error "order does not exist"
      | some o =>
        if checkUserOwnership && !(userId == some o.userId) then
          .error "no permission to access this order"
        else
          .ok (o, cacheSet cache orderId o)

/-- The field update applied to an order marked as paid: status becomes PAID
and the pay time is the supplied one, defaulting to the current time. -/
def paidUpdate (payTime : Option Nat) (now : Nat) (o : Order) : Order :=
  { o with status := OrderStatus.paid, payTime := some (payTime.getD now) }

/-- `OrderService.mark_order_as_paid` with the detail read taken from the
database path (`getOrderDetailDb`); `markOrderAsPaidCached` below is the
cache-threaded embedding, and the two agree whenever the cache holds no
entry for the order.  Exceptions from the detail read are caught and turned
into a `false` return; only a detail reading PENDING is moved to PAID,
recording the supplied pay time or the current time. -/
def markOrderAsPaid (orders : List Order) (orderId : Nat) (payTime : Option Nat)
    (now : Nat) (userId : Option Nat) (checkUserOwnership : Bool) :
    Bool × List Order :=
  match getOrderDetailDb orders orderId userId checkUserOwnership with
  | .error _ => (false, orders)
  | .ok detail =>
    if detail.status != OrderStatus.pending then
      (false, orders)
    else
      (true, updateOrderById orders orderId (paidUpdate payTime now))

/-- `OrderService.mark_order_as_paid` in full, reading the detail through
the cache (`get_order_detail`), and deleting the cache entry after a
successful status write — the only mutator that invalidates this cache.
Components: the returned Bool, the orders table, and the cache after the
call. -/
def markOrderAsPaidCached (cache : List (Nat × Order)) (orders : List Order)
    (orderId : Nat) (payTime : Option Nat) (now : Nat) (userId : Option Nat)
    (checkUserOwnership : Bool) :
    Bool × List Order × List (Nat × Order) :=
  match getOrderDetail cache orders orderId userId checkUserOwnership with
  | .error _ => (false, orders, cache)
  | .ok (detail, cache1) =>
    if detail.status != OrderStatus.pending then
      (false, orders, cache1)
    else
      (true, updateOrderById orders orderId (paidUpdate payTime now),
        cacheDelete cache1 orderId)

/-- A pending order used as concrete input for the order state machine. -/
def samplePendingOrder : Order :=
  { id := 1, userId := 5, status := OrderStatus.pending, payTime := none,
    expireTime := some 100, paymentType := "wechat",
    merchantOrderNo := "M1", items := [] }

/-- Status update applied by `close_order`. -/
def cancelUpdate (o : Order) : Order :=
  { o with status := OrderStatus.cancelled }

/-- Status update applied by `close_timeout_order`. -/
def timeoutUpdate (o : Order) : Order :=
  { o with status := OrderStatus.timeoutClosed }

/-- `OrderService.close_order`: raises when the order is missing or when a
requested ownership check fails; returns `false` when the status is not
PENDING; otherwise cancels the order. -/
def closeOrder (orders : List Order) (orderId : Nat) (userId : Option Nat) :
    Except String (Bool × List Order) :=
  match findOrder orders orderId with
  | none => .error "order does not exist"
  | some o =>
    if userId.isSome && !(userId == some o.userId) then
      .error "no permission to operate this order"
    else if o.status != OrderStatus.pending then
      .ok (false, orders)
    else
      .ok (true, updateOrderById orders orderId cancelUpdate)

/-- `OrderService.close_timeout_order`: no ownership check, returns `false`
when the order is missing or not PENDING, otherwise moves it to
TIMEOUT_CLOSED. -/
def closeTimeoutOrder (orders : List Order) (orderId : Nat) : Bool × List Order :=
  match findOrder orders orderId with
  | none => (false, orders)
  | some o =>
    if o.status != OrderStatus.pending then
      (false, orders)
    else
      (true, updateOrderById orders orderId timeoutUpdate)

theorem find?_updateWhere (l : List α) (p : α → Bool) (f : α → α)
    (hkey : ∀ x, p (f x) = p x) :
    (updateWhere l p f).find? p = (l.find? p).map f := by
  induction l with
  | nil => rfl
  | cons x xs ih =>
    by_cases hx : p x
    · simp [updateWhere, List.find?, hx, hkey x]
    · simpa [updateWhere, List.find?, hx, hkey x] using ih

theorem findOrder_updateOrderById (orders : List Order) (orderId : Nat)
    (f : Order → Order) (hf : ∀ o, (f o).id = o.id) :
    findOrder (updateOrderById orders orderId f) orderId =
      (findOrder orders orderId).map f := by
  refine find?_updateWhere orders _ f ?_
  intro x
  simp [hf x]

theorem closeTimeoutOrder_of_not_pending (orders : List Order) (orderId : Nat)
    (h : ∀ d, findOrder orders orderId = some d → d.status ≠ OrderStatus.pending) :
    closeTimeoutOrder orders orderId = (false, orders) := by
  unfold closeTimeoutOrder
  cases hfo : findOrder orders orderId with
  | none => rfl
  | some o => simp [h o hfo]

theorem markOrderAsPaidCached_cache_miss (cache : List (Nat × Order))
    (orders : List Order) (orderId : Nat) (payTime : Option Nat) (now : Nat)
    (userId : Option Nat) (chk : Bool)
    (hmiss : cacheGet cache orderId = none) :
    (markOrderAsPaidCached cache orders orderId payTime now userId chk).1 =
      (markOrderAsPaid orders orderId payTime now userId chk).1 ∧
    (markOrderAsPaidCached cache orders orderId payTime now userId chk).2.1 =
      (markOrderAsPaid orders orderId payTime now userId chk).2 := by
  unfold markOrderAsPaidCached markOrderAsPaid getOrderDetail getOrderDetailDb
  by_cases hg : (chk && userId.isNone) = true
  · rw [if_pos hg, if_pos hg]
    exact ⟨rfl, rfl⟩
  · rw [if_neg hg, if_neg hg]
    rw [hmiss]
    dsimp only
    cases hfo : findOrder orders orderId with
    | none => exact ⟨rfl, rfl⟩
    | some o =>
      dsimp only
      by_cases hown : (chk && !(userId == some o.userId)) = true
      · rw [if_pos hown, if_pos hown]
        exact ⟨rfl, rfl⟩
      · rw [if_neg hown, if_neg hown]
        dsimp only
        by_cases hs : (o.status != OrderStatus.pending) = true
        · rw [if_pos hs, if_pos hs]
          exact ⟨rfl, rfl⟩
        · rw [if_neg hs, if_neg hs]
          exact ⟨rfl, rfl⟩

/-- Claim C2 evaluated on the code at its failing input (the claim is right
and the code is a slip): creating order 1 caches its PENDING detail under
`order_detail:item:1`; `close_order` then cancels the order without
invalidating that cache, which only `mark_order_as_paid` itself deletes; so
a `mark_order_as_paid` call inside the cache TTL reads the stale PENDING
detail, returns `true`, and transitions the CANCELLED order to PAID, where
the claim — and the spec's invalidate-on-every-write cache policy that
`mark_order_as_paid`'s own write follows — requires `false` and no change,
the database status not being PENDING. -/
theorem mark_order_as_paid_stale_cache_c2 :
    closeOrder [samplePendingOrder] 1 (some 5) =
      .ok (true,
        [{ samplePendingOrder with status := OrderStatus.cancelled }]) ∧
    ({ samplePendingOrder with status := OrderStatus.cancelled } : Order).status ≠
      OrderStatus.pending ∧
    markOrderAsPaidCached [(1, samplePendingOrder)]
        [{ samplePendingOrder with status := OrderStatus.cancelled }]
        1 none 7 none false =
      (true,
        [{ samplePendingOrder with
           status := OrderStatus.paid,
           payTime := some 7 }], []) :=
  ⟨rfl, by decide, rfl⟩

/-- A concrete run refuting claim C8 as stated: on an ownership mismatch
`close_order` raises a business exception instead of returning `false`. -/
theorem close_order_c8_counterexample :
    closeOrder [{ id := 1, userId := 5, status := OrderStatus.pending,
                  payTime := none, expireTime := none, paymentType := "wechat",
                  merchantOrderNo := "M1", items := [] }] 1 (some 6) =
      .error "no permission to operate this order" := rfl

/-- Claim C8 (amended): `close_order` cancels and returns `true` exactly when
the order exists, any requested ownership check passes and the status is
PENDING; it returns `false` (leaving the orders unchanged) when the order
exists, ownership passes and the status is not PENDING; and it raises a
business exception when the order does not exist or the ownership check
fails. -/
theorem close_order_spec (orders : List Order) (orderId : Nat)
    (userId : Option Nat) :
    ((∃ os2, closeOrder orders orderId userId = .ok (true, os2)) ↔
      ∃ o, findOrder orders orderId = some o ∧
        (∀ u, userId = some u → u = o.userId) ∧ o.status = OrderStatus.pending) ∧
    (∀ o os2, findOrder orders orderId = some o →
      closeOrder orders orderId userId = .ok (true, os2) →
      findOrder os2 orderId = some { o with status := OrderStatus.cancelled }) ∧
    (∀ os2, closeOrder orders orderId userId = .ok (false, os2) →
      os2 = orders ∧ ∃ o, findOrder orders orderId = some o ∧
        (∀ u, userId = some u → u = o.userId) ∧ o.status ≠ OrderStatus.pending) ∧
    ((∃ e, closeOrder orders orderId userId = .error e) ↔
      (findOrder orders orderId = none ∨
        ∃ o u, findOrder orders orderId = some o ∧ userId = some u ∧
          u ≠ o.userId)) := by
  cases hfo : findOrder orders orderId with
  | none =>
    have hcl : closeOrder orders orderId userId = .error "order does not exist" := by
      unfold closeOrder; rw [hfo]
    refine ⟨?_, ?_, ?_, ?_⟩
    · rw [hcl]; simp [hfo]
    · intro o os2 h; cases h
    · intro os2 h; rw [hcl] at h; cases h
    · rw [hcl]; simp [hfo]
  | some o =>
    by_cases hmatch : (userId.isSome && !(userId == some o.userId)) = true
    · obtain ⟨u, hu, hne⟩ : ∃ u, userId = some u ∧ u ≠ o.userId := by
        cases userId with
        | none => simp at hmatch
        | some u =>
          refine ⟨u, rfl, ?_⟩
          intro h
          simp [h] at hmatch
      have hcl : closeOrder orders orderId userId =
          .error "no permission to operate this order" := by
        simp only [closeOrder, hfo]
        rw [if_pos hmatch]
      refine ⟨?_, ?_, ?_, ?_⟩
      · rw [hcl]; aesop
      · intro o2 os2 _ h; rw [hcl] at h; cases h
      · intro os2 h; rw [hcl] at h; cases h
      · rw [hcl]; aesop
    · have hownok : ∀ u, userId = some u → u = o.userId := by
        intro u hu
        subst hu
        simp at hmatch
        exact hmatch
      by_cases hs : o.status = OrderStatus.pending
      · have hcl : closeOrder orders orderId userId =
            .ok (true, updateOrderById orders orderId cancelUpdate) := by
          simp only [closeOrder, hfo]
          rw [if_neg hmatch]
          simp [hs]
        refine ⟨?_, ?_, ?_, ?_⟩
        · rw [hcl]; aesop
        · intro o2 os2 ho2 h
          injection ho2 with ho2
          subst ho2
          rw [hcl] at h
          injection h with h1
          injection h1 with h1 h2
          rw [← h2, findOrder_updateOrderById orders orderId cancelUpdate
            (fun x => rfl), hfo]
          rfl
        · intro os2 h; rw [hcl] at h; simp at h
        · rw [hcl]; aesop
      · have hcl : closeOrder orders orderId userId = .ok (false, orders) := by
          simp only [closeOrder, hfo]
          rw [if_neg hmatch]
          simp [hs]
        refine ⟨?_, ?_, ?_, ?_⟩
        · rw [hcl]; aesop
        · intro o2 os2 ho2 h; rw [hcl] at h; simp at h
        · intro os2 h
          rw [hcl] at h
          injection h with h1
          injection h1 with h1 h2
          exact ⟨h2.symm, o, rfl, hownok, hs⟩
        · rw [hcl]; aesop

/-- Claim C9: `close_timeout_order` returns `true` and moves the order to
TIMEOUT_CLOSED exactly when the order exists with status PENDING (no
ownership check); it returns `false` leaving the orders unchanged otherwise,
so a second delivery of the closure after a successful first one returns
`false` and leaves the order TIMEOUT_CLOSED. -/
theorem close_timeout_order_spec (orders : List Order) (orderId : Nat) :
    ((closeTimeoutOrder orders orderId).1 = true ↔
      ∃ o, findOrder orders orderId = some o ∧ o.status = OrderStatus.pending) ∧
    (∀ o, findOrder orders orderId = some o →
      (closeTimeoutOrder orders orderId).1 = true →
      findOrder (closeTimeoutOrder orders orderId).2 orderId =
        some { o with status := OrderStatus.timeoutClosed }) ∧
    ((closeTimeoutOrder orders orderId).1 = false →
      (closeTimeoutOrder orders orderId).2 = orders) ∧
    ((closeTimeoutOrder orders orderId).1 = true →
      closeTimeoutOrder (closeTimeoutOrder orders orderId).2 orderId =
        (false, (closeTimeoutOrder orders orderId).2)) := by
  cases hfo : findOrder orders orderId with
  | none =>
    refine ⟨?_, ?_, ?_, ?_⟩
    · simp [closeTimeoutOrder, hfo]
    · intro o h; cases h
    · intro _; simp [closeTimeoutOrder, hfo]
    · intro h; simp [closeTimeoutOrder, hfo] at h
  | some o =>
    by_cases hs : o.status = OrderStatus.pending
    · have hcto : closeTimeoutOrder orders orderId =
          (true, updateOrderById orders orderId timeoutUpdate) := by
        simp [closeTimeoutOrder, hfo, hs]
      have hupd : findOrder (closeTimeoutOrder orders orderId).2 orderId =
          some { o with status := OrderStatus.timeoutClosed } := by
        rw [hcto]
        rw [findOrder_updateOrderById orders orderId timeoutUpdate
          (fun x => rfl), hfo]
        rfl
      refine ⟨?_, ?_, ?_, ?_⟩
      · rw [hcto]
        constructor
        · intro _; exact ⟨o, rfl, hs⟩
        · intro _; rfl
      · intro o2 ho2 _
        injection ho2 with ho2
        subst ho2
        exact hupd
      · intro hfalse
        rw [hcto] at hfalse
        simp at hfalse
      · intro _
        refine closeTimeoutOrder_of_not_pending _ _ ?_
        intro d hd
        rw [hupd] at hd
        injection hd with hd
        subst hd
        simp
    · have hcto : closeTimeoutOrder orders orderId = (false, orders) := by
        simp [closeTimeoutOrder, hfo, hs]
      refine ⟨?_, ?_, ?_, ?_⟩
      · rw [hcto]
        constructor
        · intro h; simp at h
        · rintro ⟨o2, ho2, hp⟩
          injection ho2 with ho2
          subst ho2
          exact absurd hp hs
      · intro o2 ho2 htrue
        rw [hcto] at htrue
        simp at htrue
      · intro _
        simp [hcto]
      · intro htrue
        rw [hcto] at htrue
        simp at htrue

/-!
Payment records and the webhook processor, from
`application/common/models/wechat_payment.py` and
`application/apis/payment/apis/wechat_api.py`.
-/

/-- Gateway trade states, from `WechatTradeState`. -/
inductive WechatTradeState where
  | SUCCESS
  | REFUND
  | NOTPAY
  | CLOSED
  | REVOKED
  | USERPAYING
  | PAYERROR
deriving DecidableEq

/-- A `WechatPayment` row.  Amounts are minor currency units; nullable
columns are `Option`. -/
structure WechatPayment where
  orderId : Option Nat
  mchid : String
  outTradeNo : String
  transactionId : Option String
  tradeType : Option String
  tradeState : WechatTradeState
  tradeStateDesc : String
  successTime : Option String
  bankType : String
  openid : String
  totalAmount : Nat
  payerTotal : Option Nat
deriving DecidableEq

/-- The fields of a decrypted SUCCESS/CLOSED notification that
`handle_payment_success` and `handle_payment_closed` read (`dict.get`
results are `Option`; `amount.payer_total` defaults to 0). -/
structure PaymentNotification where
  outTradeNo : Option String
  transactionId : Option String
  tradeStateDesc : Option String
  successTime : Option String
  bankType : Option String
  tradeType : Option String
  mchid : Option String
  payerTotal : Nat
deriving DecidableEq

/-- SKU fields read by the fulfillment handlers, from the `SKU` model and
the `SkuInfo` schema. -/
structure SkuInfo where
  id : Nat
  productId : Nat
  vipPlanId : Option Int
  designLicensePlanId : Option Int
  designId : Option Nat
deriving DecidableEq

/-- A product together with its SKU list (`get_by_id_with_skus`). -/
structure ProductInfo where
  id : Nat
  name : String
  productType : String
  isPublished : Bool
  skus : List SkuInfo
deriving DecidableEq

/-- A `VIPPlan` row. -/
structure VIPPlan where
  id : Nat
  name : String
  days : Nat
deriving DecidableEq

/-- A `UserVIP` row: membership window and cumulative days. -/
structure UserVIP where
  userId : Nat
  totalDays : Nat
  startTime : Nat
  endTime : Option Nat
deriving DecidableEq

/-- License kinds, from `LicenseType` in
`application/common/models/design.py`. -/
inductive LicenseType where
  | normal
  | buyout
  | commercial
deriving DecidableEq

/-- A `DesignLicensePlan` row (fields the handlers read). -/
structure DesignLicensePlan where
  id : Nat
  licenseType : LicenseType
deriving DecidableEq

/-- A `UserDesignLicense` row created by `bind_license`. -/
structure UserDesignLicense where
  userId : Nat
  designId : Option Nat
  productId : Option Nat
  planId : Nat
  isBuyout : Bool
  licenseType : LicenseType
deriving DecidableEq

/-- Design states, from `DesignState`. -/
inductive DesignState where
  | draft
  | pending
  | approved
  | rejected
  | boughtOut
deriving DecidableEq

/-- A `Design` row (fields the buyout path reads and writes). -/
structure Design where
  id : Nat
  userId : Nat
  productId : Option Nat
  state : DesignState
deriving DecidableEq

/-- The persistent state the payment settlement flow touches. -/
structure AppState where
  payments : List WechatPayment
  orders : List Order
  products : List ProductInfo
  vipPlans : List VIPPlan
  userVips : List UserVIP
  licensePlans : List DesignLicensePlan
  licenses : List UserDesignLicense
  designs : List Design
deriving DecidableEq

/-- Python truthiness of the nullable `order_id` column (None and 0 are
falsy). -/
def pyTruthy (n : Option Nat) : Bool :=
  match n with
  | some k => k != 0
  | none => false

/-- A Python value passed where `bind_license` expects a SKU object: the
call site in `DesignProductHandler.handle` actually passes the integer
`sku.design_id` (or `None`). -/
inductive PyArg where
  | noneArg
  | intArg (n : Nat)
  | skuArg (s : SkuInfo)
deriving DecidableEq

/-- Attribute access `x.design_id`: raises AttributeError unless `x` is a
SKU object. -/
def pyAttrDesignId : PyArg → Except String (Option Nat)
  | .skuArg s => .ok s.designId
  | .intArg _ => .error "AttributeError: int object has no attribute design_id"
  | .noneArg => .error "AttributeError: NoneType object has no attribute design_id"

/-- Attribute access `x.product_id`: raises AttributeError unless `x` is a
SKU object. -/
def pyAttrProductId : PyArg → Except String Nat
  | .skuArg s => .ok s.productId
  | .intArg _ => .error "AttributeError: int object has no attribute product_id"
  | .noneArg => .error "AttributeError: NoneType object has no attribute product_id"

/-- `UserDesignLicenseService.bind_license`, translated statement by
statement.  Its `sku` parameter is a dynamic Python value because the only
call site passes `sku.design_id` instead of the SKU object. -/
def bindLicense (userId : Nat) (sku : PyArg) (plan : DesignLicensePlan)
    (st : AppState) : Except String AppState :=
  let isBuyout := plan.licenseType == LicenseType.buyout ||
    plan.licenseType == LicenseType.commercial
  match pyAttrDesignId sku with
  | .error e => .error e
  | .ok designId =>
    match pyAttrProductId sku with
    | .error e => .error e
    | .ok productId =>
      let newRow : UserDesignLicense :=
        { userId := userId, designId := designId, productId := some productId,
          planId := plan.id, isBuyout := isBuyout,
          licenseType := plan.licenseType }
      let st1 := { st with licenses := st.licenses ++ [newRow] }
      if !isBuyout then .ok st1
      else
        match designId with
        | none => .ok st1
        | some did =>
          match st1.designs.find? (fun d => d.id == did) with
          | none => .ok st1
          | some design =>
            let designs2 := updateWhere st1.designs (fun d => d.id == did)
              (fun d => { d with state := DesignState.boughtOut })
            let st2 := { st1 with designs := designs2 }
            match design.productId with
            | some pid =>
              let products2 := updateWhere st2.products (fun p => p.id == pid)
                (fun p => { p with isPublished := false })
              .ok { st2 with products := products2 }
            | none => .ok st2

/-- `DesignProductHandler.handle`: resolves product, SKU and license plan,
then calls `bind_license` passing `sku.design_id` where a SKU object is
expected. -/
def designHandle (od : Order) (item : OrderItemRec) (st : AppState) :
    Except String AppState :=
  match st.products.find? (fun p => p.id == item.productId) with
  | none => .ok st
  | some product =>
    match product.skus.find? (fun s => item.skuId == some s.id) with
    | none => .ok st
    | some sku =>
      match sku.designLicensePlanId with
      | none => .error "TypeError: NoneType is not comparable with int"
      | some planId =>
        if planId ≤ 0 then .ok st
        else
          match st.licensePlans.find? (fun p => (p.id : Int) == planId) with
          | none => .ok st
          | some plan =>
            bindLicense od.userId
              (match sku.designId with
                | some d => PyArg.intArg d
                | none => PyArg.noneArg) plan st

/-- Membership window restart (`start = now, end = now + plan.days`), still
accumulating total days. -/
def vipRestart (days now : Nat) (uv : UserVIP) : UserVIP :=
  { uv with
    totalDays := uv.totalDays + days,
    startTime := now,
    endTime := some (now + days) }

/-- Membership window extension (`end = end + plan.days`), accumulating
total days. -/
def vipExtend (days e : Nat) (uv : UserVIP) : UserVIP :=
  { uv with totalDays := uv.totalDays + days, endTime := some (e + days) }

/-- The update applied to an existing `UserVIP` row: extend when the window
has not expired, restart otherwise. -/
def vipApply (days now : Nat) (uv : UserVIP) : UserVIP :=
  match uv.endTime with
  | some e => if now < e then vipExtend days e uv else vipRestart days now uv
  | none => vipRestart days now uv

/-- `VipProductHandler.handle`: resolves product, SKU and VIP plan, then
creates or updates the buyer's `UserVIP` row. -/
def vipHandle (od : Order) (item : OrderItemRec) (now : Nat) (st : AppState) :
    Except String AppState :=
  match st.products.find? (fun p => p.id == item.productId) with
  | none => .ok st
  | some product =>
    match product.skus.find? (fun s => item.skuId == some s.id) with
    | none => .ok st
    | some sku =>
      match sku.vipPlanId with
      | none => .error "TypeError: NoneType is not comparable with int"
      | some planId =>
        if planId ≤ 0 then .ok st
        else
          match st.vipPlans.find? (fun p => (p.id : Int) == planId) with
          | none => .ok st
          | some plan =>
            match st.userVips.find? (fun v => v.userId == od.userId) with
            | none =>
              let newVip : UserVIP :=
                { userId := od.userId, totalDays := plan.days,
                  startTime := now, endTime := some (now + plan.days) }
              .ok { st with userVips := st.userVips ++ [newVip] }
            | some _ =>
              let vips2 := updateWhere st.userVips
                (fun v => v.userId == od.userId) (vipApply plan.days now)
              .ok { st with userVips := vips2 }

/-- Dispatch by order-item type, as `PaymentSuccessService.__init__` builds
its handler registry; an unknown type yields `None.handle`, an
AttributeError. -/
def dispatchHandler (od : Order) (item : OrderItemRec) (now : Nat)
    (st : AppState) : Except String AppState :=
  if item.itemType == "physical" then .ok st
  else if item.itemType == "vip" then vipHandle od item now st
  else if item.itemType == "design" then designHandle od item st
  else .error "AttributeError: NoneType object has no attribute handle"

/-- The handler loop inside `on_payment_success`; an exception stops the
loop and is caught by the surrounding `except`, producing `false`. -/
def runHandlers (od : Order) (now : Nat) :
    List OrderItemRec → AppState → Bool × AppState
  | [], st => (true, st)
  | item :: rest, st =>
    match dispatchHandler od item now st with
    | .error _ => (false, st)
    | .ok st2 => runHandlers od now rest st2

/-- `PaymentSuccessService.on_payment_success`: fetches the order detail,
compares `payment_type` with the PAID status string (the literal source
comparison), marks the order paid, runs one handler per item, and returns
the mark result (or `false` on any caught exception). -/
def onPaymentSuccess (orderId payTime now : Nat) (st : AppState) :
    Bool × AppState :=
  match findOrder st.orders orderId with
  | none => (false, st)
  | some od =>
    if od.paymentType == "paid" then (true, st)
    else
      let mr := markOrderAsPaid st.orders orderId (some payTime) now none false
      let st1 := { st with orders := mr.2 }
      let hr := runHandlers od now od.items st1
      (hr.1 && mr.1, hr.2)

/-- The record update `handle_payment_success` applies to the matching
`WechatPayment` row. -/
def successUpdate (pd : PaymentNotification) (tid : String)
    (p : WechatPayment) : WechatPayment :=
  let p1 := { p with
    transactionId := some tid,
    tradeState := WechatTradeState.SUCCESS,
    tradeStateDesc := pd.tradeStateDesc.getD "pay success",
    successTime := pd.successTime,
    bankType := pd.bankType.getD "",
    tradeType := some (pd.tradeType.getD ""),
    mchid := pd.mchid.getD "" }
  if pd.payerTotal > 0 then { p1 with payerTotal := some pd.payerTotal } else p1

/-- First idempotency check of `handle_payment_success`: a SUCCESS record
already bearing this gateway transaction id. -/
def checkByTransactionId (payments : List WechatPayment) (tid : String) : Bool :=
  (payments.find? fun p => p.transactionId == some tid &&
    p.tradeState == WechatTradeState.SUCCESS).isSome

/-- Second idempotency check of `handle_payment_success`: a SUCCESS record
with this merchant order number. -/
def checkByOutTradeNo (payments : List WechatPayment) (otn : String) :
    Option WechatPayment :=
  payments.find? fun p => p.outTradeNo == otn &&
    p.tradeState == WechatTradeState.SUCCESS

/-- `handle_payment_success`, translated from the webhook module.  The
`payTime` argument stands for `parse_rfc3339_time(success_time) or now`.
An `error` result models a raised exception, whose enclosing database
transaction rolls every write back, so the caller observes the original
state. -/
def handlePaymentSuccess (pd : PaymentNotification) (payTime now : Nat)
    (st : AppState) : Except String AppState :=
  match pd.outTradeNo, pd.transactionId with
  | some otn, some tid =>
    if checkByTransactionId st.payments tid then .ok st
    else
      match checkByOutTradeNo st.payments otn with
      | some existing =>
        if existing.transactionId.isSome &&
            !(existing.transactionId == some tid) then
          .error "order number conflict"
        else .ok st
      | none =>
        match st.payments.find? (fun p => p.outTradeNo == otn) with
        | none =>
          .error "UnboundLocalError: local variable order_id referenced before assignment"
        | some wp =>
          let pays2 := updateWhere st.payments (fun p => p.outTradeNo == otn)
            (successUpdate pd tid)
          let st1 := { st with payments := pays2 }
          match wp.orderId with
          | some oid =>
            if oid != 0 then
              let r := onPaymentSuccess oid payTime now st1
              if r.1 then .ok r.2 else .error "order status update failed"
            else .error "payment record missing order id"
          | none => .error "payment record missing order id"
  | _, _ => .error "missing out_trade_no or transaction_id"

/-- `handle_payment_closed`: no-op when the record is missing, already
CLOSED, or already SUCCESS; otherwise marks the record CLOSED. -/
def handlePaymentClosed (pd : PaymentNotification) (st : AppState) :
    Except String AppState :=
  match pd.outTradeNo with
  | none => .error "missing out_trade_no"
  | some otn =>
    match st.payments.find? (fun p => p.outTradeNo == otn) with
    | none => .ok st
    | some wp =>
      if wp.tradeState == WechatTradeState.CLOSED then .ok st
      else if wp.tradeState == WechatTradeState.SUCCESS then .ok st
      else
        let pays2 := updateWhere st.payments (fun p => p.outTradeNo == otn)
          fun p =>
            { p with
              tradeState := WechatTradeState.CLOSED,
              tradeStateDesc := pd.tradeStateDesc.getD "order closed",
              transactionId := match pd.transactionId with
                | some t => some t
                | none => p.transactionId }
        .ok { st with payments := pays2 }

/-- The create-or-update of the `WechatPayment` row inside
`create_wechat_payment`: an existing row keeps SUCCESS and is otherwise
reset to NOTPAY; a missing row is created as NOTPAY. -/
def upsertPaymentOnPrepay (payments : List WechatPayment) (orderId : Nat)
    (openid : String) (totalAmount : Nat) (otn : String) :
    List WechatPayment :=
  match payments.find? (fun p => p.outTradeNo == otn) with
  | some _ =>
    updateWhere payments (fun p => p.outTradeNo == otn) fun p =>
      { p with
        orderId := some orderId,
        openid := openid,
        totalAmount := totalAmount,
        tradeState := if p.tradeState == WechatTradeState.SUCCESS
          then p.tradeState else WechatTradeState.NOTPAY }
  | none =>
    let newRow : WechatPayment :=
      { orderId := some orderId, mchid := "", outTradeNo := otn,
        transactionId := none, tradeType := none,
        tradeState := WechatTradeState.NOTPAY, tradeStateDesc := "",
        successTime := none, bankType := "", openid := openid,
        totalAmount := totalAmount, payerTotal := none }
    payments ++ [newRow]

/-- The `wechat_pay_callback` dispatch after signature verification and
decryption: a handler exception produces a retryable 500 with no state
change, success and unknown event types acknowledge with 200. -/
def wechatPayCallbackDispatch (eventType : String) (pd : PaymentNotification)
    (payTime now : Nat) (st : AppState) : Nat × AppState :=
  if eventType == "TRANSACTION.SUCCESS" then
    match handlePaymentSuccess pd payTime now st with
    | .ok st2 => (200, st2)
    | .error _ => (500, st)
  else if eventType == "TRANSACTION.CLOSED" then
    match handlePaymentClosed pd st with
    | .ok st2 => (200, st2)
    | .error _ => (500, st)
  else (200, st)

theorem successUpdate_transactionId (pd : PaymentNotification) (tid : String)
    (p : WechatPayment) : (successUpdate pd tid p).transactionId = some tid := by
  unfold successUpdate
  dsimp only
  split <;> rfl

theorem successUpdate_tradeState (pd : PaymentNotification) (tid : String)
    (p : WechatPayment) :
    (successUpdate pd tid p).tradeState = WechatTradeState.SUCCESS := by
  unfold successUpdate
  dsimp only
  split <;> rfl

theorem checkByTransactionId_of_mem (payments : List WechatPayment)
    (tid : String) (p : WechatPayment) (hmem : p ∈ payments)
    (ht : p.transactionId = some tid)
    (hs : p.tradeState = WechatTradeState.SUCCESS) :
    checkByTransactionId payments tid = true := by
  unfold checkByTransactionId
  exact List.find?_isSome.mpr ⟨p, hmem, by simp [ht, hs]⟩

theorem bindLicense_payments (userId : Nat) (sku : PyArg)
    (plan : DesignLicensePlan) (st st2 : AppState)
    (h : bindLicense userId sku plan st = .ok st2) :
    st2.payments = st.payments := by
  unfold bindLicense at h
  dsimp only at h
  repeat' split at h
  all_goals try cases h
  all_goals rfl

theorem designHandle_payments (od : Order) (item : OrderItemRec)
    (st st2 : AppState) (h : designHandle od item st = .ok st2) :
    st2.payments = st.payments := by
  unfold designHandle at h
  repeat' split at h
  all_goals try cases h
  all_goals rfl

theorem vipHandle_payments (od : Order) (item : OrderItemRec) (now : Nat)
    (st st2 : AppState) (h : vipHandle od item now st = .ok st2) :
    st2.payments = st.payments := by
  unfold vipHandle at h
  dsimp only at h
  repeat' split at h
  all_goals try cases h
  all_goals rfl

theorem dispatchHandler_payments (od : Order) (item : OrderItemRec) (now : Nat)
    (st st2 : AppState) (h : dispatchHandler od item now st = .ok st2) :
    st2.payments = st.payments := by
  unfold dispatchHandler at h
  repeat' split at h
  all_goals try cases h
  all_goals try rfl
  all_goals first
    | exact vipHandle_payments _ _ _ _ _ h
    | exact designHandle_payments _ _ _ _ h

theorem runHandlers_payments (od : Order) (now : Nat) (items : List OrderItemRec) :
    ∀ st : AppState, ((runHandlers od now items st).2).payments = st.payments := by
  induction items with
  | nil => intro st; rfl
  | cons item rest ih =>
    intro st
    unfold runHandlers
    cases hd : dispatchHandler od item now st with
    | error e => rfl
    | ok st2 =>
      dsimp only
      rw [ih st2, dispatchHandler_payments od item now st st2 hd]

theorem onPaymentSuccess_payments (orderId payTime now : Nat) (st : AppState) :
    ((onPaymentSuccess orderId payTime now st).2).payments = st.payments := by
  unfold onPaymentSuccess
  cases hfo : findOrder st.orders orderId with
  | none => rfl
  | some od =>
    cases hb : od.paymentType == "paid" with
    | true => simp [hb]
    | false =>
      simp only [hb, Bool.false_eq_true, if_false]
      exact runHandlers_payments od now od.items _

/-- Claim C10: on a decrypted SUCCESS notification whose merchant order
number has no `WechatPayment` row at all (and whose transaction id passes
the first idempotency check), `handle_payment_success` raises the unbound
local `order_id` before touching any order, and the webhook answers with a
retryable 500, leaving the state unchanged. -/
theorem handle_payment_success_missing_record_c10 (pd : PaymentNotification)
    (payTime now : Nat) (st : AppState) (otn tid : String)
    (hot : pd.outTradeNo = some otn) (hti : pd.transactionId = some tid)
    (hno : ∀ p ∈ st.payments, p.outTradeNo ≠ otn)
    (hc1 : checkByTransactionId st.payments tid = false) :
    handlePaymentSuccess pd payTime now st =
      .error "UnboundLocalError: local variable order_id referenced before assignment" ∧
    wechatPayCallbackDispatch "TRANSACTION.SUCCESS" pd payTime now st =
      (500, st) := by
  have hfind : st.payments.find? (fun p => p.outTradeNo == otn) = none := by
    rw [List.find?_eq_none]
    intro p hp
    simp [hno p hp]
  have hc2 : checkByOutTradeNo st.payments otn = none := by
    unfold checkByOutTradeNo
    rw [List.find?_eq_none]
    intro p hp
    simp [hno p hp]
  have hmain : handlePaymentSuccess pd payTime now st =
      .error "UnboundLocalError: local variable order_id referenced before assignment" := by
    unfold handlePaymentSuccess
    rw [hot, hti]
    dsimp only
    rw [hc1]
    simp only [Bool.false_eq_true, if_false]
    rw [hc2]
    dsimp only
    rw [hfind]
  refine ⟨hmain, ?_⟩
  unfold wechatPayCallbackDispatch
  rw [hmain]
  rfl

/-- Witness for claim C10 at a concrete empty payments table. -/
theorem handle_payment_success_missing_record_c10_witness :
    handlePaymentSuccess
      { outTradeNo := some "A", transactionId := some "T",
        tradeStateDesc := none, successTime := none, bankType := none,
        tradeType := none, mchid := none, payerTotal := 0 } 1 2
      { payments := [], orders := [], products := [], vipPlans := [],
        userVips := [], licensePlans := [], licenses := [], designs := [] } =
      .error "UnboundLocalError: local variable order_id referenced before assignment" :=
  (handle_payment_success_missing_record_c10
    { outTradeNo := some "A", transactionId := some "T",
      tradeStateDesc := none, successTime := none, bankType := none,
      tradeType := none, mchid := none, payerTotal := 0 } 1 2
    { payments := [], orders := [], products := [], vipPlans := [],
      userVips := [], licensePlans := [], licenses := [], designs := [] }
    "A" "T" rfl rfl (by intro p hp; cases hp) rfl).1

theorem mem_updateWhere_of_mem (l : List α) (p : α → Bool) (f : α → α) (x : α)
    (hx : x ∈ l) (hp : p x = true) : f x ∈ updateWhere l p f := by
  unfold updateWhere
  have := List.mem_map_of_mem (fun y => if p y then f y else y) hx
  simpa [hp] using this

theorem handlePaymentSuccess_ack_check1 (pd : PaymentNotification)
    (payTime now : Nat) (st : AppState) (otn tid : String)
    (hot : pd.outTradeNo = some otn) (hti : pd.transactionId = some tid)
    (h : checkByTransactionId st.payments tid = true) :
    handlePaymentSuccess pd payTime now st = .ok st := by
  unfold handlePaymentSuccess
  rw [hot, hti]
  dsimp only
  rw [if_pos h]

theorem handlePaymentSuccess_ack_check2 (pd : PaymentNotification)
    (payTime now : Nat) (st : AppState) (otn tid : String)
    (hot : pd.outTradeNo = some otn) (hti : pd.transactionId = some tid)
    (hc1 : checkByTransactionId st.payments tid = false)
    (ex : WechatPayment) (hc2 : checkByOutTradeNo st.payments otn = some ex)
    (hcond : (ex.transactionId.isSome && !(ex.transactionId == some tid)) = false) :
    handlePaymentSuccess pd payTime now st = .ok st := by
  unfold handlePaymentSuccess
  rw [hot, hti]
  dsimp only
  rw [hc1]
  simp only [Bool.false_eq_true, if_false]
  rw [hc2]
  dsimp only
  rw [hcond]
  simp

theorem handlePaymentSuccess_ok_shape (pd : PaymentNotification)
    (payTime now : Nat) (st st2 : AppState) (otn tid : String)
    (hot : pd.outTradeNo = some otn) (hti : pd.transactionId = some tid)
    (h : handlePaymentSuccess pd payTime now st = .ok st2) :
    (st2 = st ∧
      (checkByTransactionId st.payments tid = true ∨
        (checkByTransactionId st.payments tid = false ∧
          ∃ ex, checkByOutTradeNo st.payments otn = some ex ∧
            (ex.transactionId.isSome && !(ex.transactionId == some tid)) = false))) ∨
    (∃ wp, st.payments.find? (fun p => p.outTradeNo == otn) = some wp ∧
      st2.payments =
        updateWhere st.payments (fun p => p.outTradeNo == otn)
          (successUpdate pd tid)) := by
  unfold handlePaymentSuccess at h
  rw [hot, hti] at h
  dsimp only at h
  by_cases hc1 : checkByTransactionId st.payments tid = true
  · rw [if_pos hc1] at h
    injection h with h
    exact Or.inl ⟨h.symm, Or.inl hc1⟩
  · rw [if_neg hc1] at h
    have hc1f : checkByTransactionId st.payments tid = false :=
      Bool.eq_false_iff.mpr (fun hb => hc1 hb)
    cases hc2 : checkByOutTradeNo st.payments otn with
    | some ex =>
      rw [hc2] at h
      dsimp only at h
      by_cases hcond : (ex.transactionId.isSome &&
          !(ex.transactionId == some tid)) = true
      · rw [if_pos hcond] at h; cases h
      · rw [if_neg hcond] at h
        injection h with h
        exact Or.inl ⟨h.symm, Or.inr ⟨hc1f, ex, rfl,
          Bool.eq_false_iff.mpr (fun hb => hcond hb)⟩⟩
    | none =>
      rw [hc2] at h
      dsimp only at h
      cases hfind : st.payments.find? (fun p => p.outTradeNo == otn) with
      | none =>
        rw [hfind] at h
        dsimp only at h
        cases h
      | some wp =>
        rw [hfind] at h
        dsimp only at h
        cases hoid : wp.orderId with
        | none =>
          rw [hoid] at h
          dsimp only at h
          cases h
        | some oid =>
          rw [hoid] at h
          dsimp only at h
          by_cases hz : (oid != 0) = true
          · rw [if_pos hz] at h
            split at h
            · injection h with h
              refine Or.inr ⟨wp, rfl, ?_⟩
              rw [← h]
              exact onPaymentSuccess_payments oid payTime now _
            · cases h
          · rw [if_neg hz] at h
            cases h

/-- The payment record already bearing a different gateway transaction id,
used to exhibit the conflict branch of `handle_payment_success`. -/
def c1ConflictRecord : WechatPayment :=
  { orderId := some 1, mchid := "", outTradeNo := "A",
    transactionId := some "T1", tradeType := none,
    tradeState := WechatTradeState.SUCCESS, tradeStateDesc := "",
    successTime := none, bankType := "", openid := "", totalAmount := 100,
    payerTotal := none }

/-- State holding only `c1ConflictRecord`. -/
def c1ConflictState : AppState :=
  { payments := [c1ConflictRecord], orders := [], products := [],
    vipPlans := [], userVips := [], licensePlans := [], licenses := [],
    designs := [] }

/-- A decrypted SUCCESS notification for the same merchant order number but
a different gateway transaction id. -/
def c1ConflictPd : PaymentNotification :=
  { outTradeNo := some "A", transactionId := some "T2",
    tradeStateDesc := none, successTime := none, bankType := none,
    tradeType := none, mchid := none, payerTotal := 0 }

/-- A concrete run refuting claim C1 as stated: the second idempotency check
matches (a SUCCESS record with the same merchant order number exists), yet
the handler raises a conflict error instead of acknowledging, because the
stored gateway transaction id differs from the incoming one. -/
theorem handle_payment_success_c1_counterexample :
    checkByOutTradeNo c1ConflictState.payments "A" = some c1ConflictRecord ∧
    c1ConflictRecord.tradeState = WechatTradeState.SUCCESS ∧
    handlePaymentSuccess c1ConflictPd 0 0 c1ConflictState =
      .error "order number conflict" :=
  ⟨rfl, rfl, rfl⟩

/-- Claim C1 (amended): before any mutation the SUCCESS handler checks first
for a SUCCESS record with the same gateway transaction id and acknowledges
without mutating; it then checks for a SUCCESS record with the same merchant
order number and acknowledges without mutating when that record's stored
transaction id is missing or equal, raising a conflict error (still without
mutating) when it differs; consequently replaying a decrypted SUCCESS
notification after an acknowledged first processing acknowledges again with
no state change, hence no second fulfillment effect. -/
theorem handle_payment_success_idempotent_c1 (pd : PaymentNotification)
    (payTime now : Nat) (st : AppState) (otn tid : String)
    (hot : pd.outTradeNo = some otn) (hti : pd.transactionId = some tid) :
    (checkByTransactionId st.payments tid = true →
      handlePaymentSuccess pd payTime now st = .ok st) ∧
    (∀ ex, checkByTransactionId st.payments tid = false →
      checkByOutTradeNo st.payments otn = some ex →
      (ex.transactionId = none ∨ ex.transactionId = some tid) →
      handlePaymentSuccess pd payTime now st = .ok st) ∧
    (∀ ex tid2, checkByTransactionId st.payments tid = false →
      checkByOutTradeNo st.payments otn = some ex →
      ex.transactionId = some tid2 → tid2 ≠ tid →
      handlePaymentSuccess pd payTime now st = .error "order number conflict") ∧
    (∀ st2, handlePaymentSuccess pd payTime now st = .ok st2 →
      ∀ payTime2 now2, handlePaymentSuccess pd payTime2 now2 st2 = .ok st2) := by
  refine ⟨?_, ?_, ?_, ?_⟩
  · intro h
    exact handlePaymentSuccess_ack_check1 pd payTime now st otn tid hot hti h
  · intro ex hc1 hc2 hcompat
    refine handlePaymentSuccess_ack_check2 pd payTime now st otn tid hot hti
      hc1 ex hc2 ?_
    rcases hcompat with h | h <;> simp [h]
  · intro ex tid2 hc1 hc2 hex hne
    unfold handlePaymentSuccess
    rw [hot, hti]
    dsimp only
    rw [hc1]
    simp only [Bool.false_eq_true, if_false]
    rw [hc2]
    dsimp only
    simp [hex, hne]
  · intro st2 h payTime2 now2
    rcases handlePaymentSuccess_ok_shape pd payTime now st st2 otn tid hot
        hti h with ⟨rfl, hc⟩ | ⟨wp, hfind, hpay⟩
    · rcases hc with hc1 | ⟨hc1, ex, hc2, hcond⟩
      · exact handlePaymentSuccess_ack_check1 pd payTime2 now2 st2 otn tid
          hot hti hc1
      · exact handlePaymentSuccess_ack_check2 pd payTime2 now2 st2 otn tid
          hot hti hc1 ex hc2 hcond
    · have hmem : wp ∈ st.payments := List.mem_of_find?_eq_some hfind
      have hpred := List.find?_some hfind
      have hmem2 : successUpdate pd tid wp ∈ st2.payments := by
        rw [hpay]
        exact mem_updateWhere_of_mem st.payments _ _ wp hmem hpred
      have hc1new : checkByTransactionId st2.payments tid = true :=
        checkByTransactionId_of_mem st2.payments tid (successUpdate pd tid wp)
          hmem2 (successUpdate_transactionId pd tid wp)
          (successUpdate_tradeState pd tid wp)
      exact handlePaymentSuccess_ack_check1 pd payTime2 now2 st2 otn tid
        hot hti hc1new

/-- Witness for claim C1 at a concrete state whose first idempotency check
matches. -/
theorem handle_payment_success_idempotent_c1_witness :
    handlePaymentSuccess
      { outTradeNo := some "A", transactionId := some "T1",
        tradeStateDesc := none, successTime := none, bankType := none,
        tradeType := none, mchid := none, payerTotal := 0 } 0 0
      c1ConflictState = .ok c1ConflictState :=
  (handle_payment_success_idempotent_c1 _ 0 0 c1ConflictState "A" "T1"
    rfl rfl).1 rfl

theorem getElem?_updateWhere (l : List α) (p : α → Bool) (f : α → α) (i : Nat) :
    (updateWhere l p f)[i]? =
      (l[i]?).map (fun x => if p x then f x else x) :=
  List.getElem?_map _ l i

theorem mem_of_getElem?_eq_some (l : List α) (i : Nat) (a : α)
    (h : l[i]? = some a) : a ∈ l := by
  have h2 := List.getElem?_eq_some.mp h
  exact h2.2 ▸ List.getElem_mem h2.1

/-- Claim C3: a payment record whose tradeState is SUCCESS keeps tradeState
SUCCESS across each write path that touches payment records: the prepay
create-or-update (which resets to NOTPAY only non-SUCCESS rows), the SUCCESS
webhook handler, and the CLOSED webhook handler (which, under the merchant
order number uniqueness the database enforces, returns without mutation when
the matching row is already SUCCESS). -/
theorem trade_state_never_regresses_c3 :
    (∀ (payments : List WechatPayment) (orderId : Nat) (openid : String)
      (amt : Nat) (otn : String) (i : Nat) (p : WechatPayment),
      payments[i]? = some p → p.tradeState = WechatTradeState.SUCCESS →
      ∃ p2, (upsertPaymentOnPrepay payments orderId openid amt otn)[i]? =
          some p2 ∧ p2.tradeState = WechatTradeState.SUCCESS) ∧
    (∀ (pd : PaymentNotification) (payTime now : Nat) (st st2 : AppState)
      (i : Nat) (p : WechatPayment),
      handlePaymentSuccess pd payTime now st = .ok st2 →
      st.payments[i]? = some p → p.tradeState = WechatTradeState.SUCCESS →
      ∃ p2, st2.payments[i]? = some p2 ∧
        p2.tradeState = WechatTradeState.SUCCESS) ∧
    (∀ (pd : PaymentNotification) (st st2 : AppState) (i : Nat)
      (p : WechatPayment),
      (∀ q r, q ∈ st.payments → r ∈ st.payments →
        q.outTradeNo = r.outTradeNo → q = r) →
      handlePaymentClosed pd st = .ok st2 →
      st.payments[i]? = some p → p.tradeState = WechatTradeState.SUCCESS →
      ∃ p2, st2.payments[i]? = some p2 ∧
        p2.tradeState = WechatTradeState.SUCCESS) := by
  refine ⟨?_, ?_, ?_⟩
  · intro payments orderId openid amt otn i p hi hs
    unfold upsertPaymentOnPrepay
    cases hfind : payments.find? (fun q => q.outTradeNo == otn) with
    | some wp =>
      dsimp only
      rw [getElem?_updateWhere, hi]
      refine ⟨_, rfl, ?_⟩
      dsimp only
      by_cases hp : (p.outTradeNo == otn) = true
      · rw [if_pos hp]
        simp [hs]
      · rw [if_neg hp]
        exact hs
    | none =>
      dsimp only
      have hilt : i < payments.length := (List.getElem?_eq_some.mp hi).1
      refine ⟨p, ?_, hs⟩
      rw [List.getElem?_append, if_pos hilt, hi]
  · intro pd payTime now st st2 i p h hi hs
    cases hot : pd.outTradeNo with
    | none =>
      unfold handlePaymentSuccess at h
      rw [hot] at h
      dsimp only at h
      cases h
    | some otn =>
      cases hti : pd.transactionId with
      | none =>
        unfold handlePaymentSuccess at h
        rw [hot, hti] at h
        dsimp only at h
        cases h
      | some tid =>
        rcases handlePaymentSuccess_ok_shape pd payTime now st st2 otn tid
            hot hti h with ⟨rfl, _⟩ | ⟨wp, hfind, hpay⟩
        · exact ⟨p, hi, hs⟩
        · rw [hpay, getElem?_updateWhere, hi]
          refine ⟨_, rfl, ?_⟩
          dsimp only
          by_cases hp : (p.outTradeNo == otn) = true
          · rw [if_pos hp]
            exact successUpdate_tradeState pd tid p
          · rw [if_neg hp]
            exact hs
  · intro pd st st2 i p huniq h hi hs
    unfold handlePaymentClosed at h
    cases hot : pd.outTradeNo with
    | none =>
      rw [hot] at h
      cases h
    | some otn =>
      rw [hot] at h
      dsimp only at h
      cases hfind : st.payments.find? (fun q => q.outTradeNo == otn) with
      | none =>
        rw [hfind] at h
        injection h with h
        subst h
        exact ⟨p, hi, hs⟩
      | some wp =>
        rw [hfind] at h
        dsimp only at h
        by_cases hcl : (wp.tradeState == WechatTradeState.CLOSED) = true
        · rw [if_pos hcl] at h
          injection h with h
          subst h
          exact ⟨p, hi, hs⟩
        · rw [if_neg hcl] at h
          by_cases hsc : (wp.tradeState == WechatTradeState.SUCCESS) = true
          · rw [if_pos hsc] at h
            injection h with h
            subst h
            exact ⟨p, hi, hs⟩
          · rw [if_neg hsc] at h
            injection h with h
            subst h
            dsimp only
            rw [getElem?_updateWhere, hi]
            refine ⟨_, rfl, ?_⟩
            dsimp only
            by_cases hp : (p.outTradeNo == otn) = true
            · have hpm : p ∈ st.payments := mem_of_getElem?_eq_some _ _ _ hi
              have hwm : wp ∈ st.payments := List.mem_of_find?_eq_some hfind
              have hwp := List.find?_some hfind
              have hkey : p.outTradeNo = wp.outTradeNo := by
                have h1 : p.outTradeNo = otn := by simpa using hp
                have h2 : wp.outTradeNo = otn := by simpa using hwp
                rw [h1, h2]
              have hpw : p = wp := huniq p wp hpm hwm hkey
              exact absurd (by rw [← hpw, hs]; rfl) hsc
            · rw [if_neg hp]
              exact hs

/-- A payment record already in the SUCCESS state, used as concrete input
for the regression invariant. -/
def sampleSuccessRecord : WechatPayment :=
  { orderId := some 1, mchid := "m", outTradeNo := "S",
    transactionId := some "TS", tradeType := none,
    tradeState := WechatTradeState.SUCCESS, tradeStateDesc := "",
    successTime := none, bankType := "", openid := "", totalAmount := 100,
    payerTotal := none }

/-- Witness for claim C3: a prepay re-creation against a SUCCESS record
leaves the record SUCCESS. -/
theorem trade_state_never_regresses_c3_witness :
    ∃ p2, (upsertPaymentOnPrepay [sampleSuccessRecord] 2 "oid" 5 "S")[0]? =
        some p2 ∧ p2.tradeState = WechatTradeState.SUCCESS :=
  trade_state_never_regresses_c3.1 [sampleSuccessRecord] 2 "oid" 5 "S" 0
    sampleSuccessRecord rfl rfl

/-- Witness for claim C8 (amended form): closing a concrete pending order by
its owner succeeds. -/
theorem close_order_spec_witness :
    ∃ os2, closeOrder [samplePendingOrder] 1 (some 5) = .ok (true, os2) :=
  (close_order_spec [samplePendingOrder] 1 (some 5)).1.mpr
    ⟨samplePendingOrder, rfl, fun _ hu => (Option.some.inj hu).symm, rfl⟩

/-- Witness for claim C9: the timeout closure of a concrete pending order
moves it to TIMEOUT_CLOSED. -/
theorem close_timeout_order_spec_witness :
    findOrder (closeTimeoutOrder [samplePendingOrder] 1).2 1 =
      some { samplePendingOrder with status := OrderStatus.timeoutClosed } :=
  (close_timeout_order_spec [samplePendingOrder] 1).2.1 samplePendingOrder
    rfl rfl

theorem vipApply_userId (d now : Nat) (v : UserVIP) :
    (vipApply d now v).userId = v.userId := by
  unfold vipApply vipExtend vipRestart
  cases v.endTime with
  | none => rfl
  | some e =>
    dsimp only
    split <;> rfl

/-- Claim C6: for a paid VIP order item resolving to a plan of `days` days,
the handler creates a fresh membership window `[now, now + days]` when the
buyer has none; extends the end time by exactly `days` when the existing
window has not yet expired; restarts the window as `[now, now + days]` when
it has expired (or has no end time); and in each case the cumulative
`total_days` grows by `days`. -/
theorem vip_handle_spec (od : Order) (item : OrderItemRec) (now : Nat)
    (st : AppState) (product : ProductInfo) (sku : SkuInfo) (planId : Int)
    (plan : VIPPlan)
    (hprod : st.products.find? (fun p => p.id == item.productId) = some product)
    (hsku : product.skus.find? (fun s => item.skuId == some s.id) = some sku)
    (hvp : sku.vipPlanId = some planId) (hpos : 0 < planId)
    (hplan : st.vipPlans.find? (fun p => (p.id : Int) == planId) = some plan) :
    ∃ st2, vipHandle od item now st = .ok st2 ∧
      (st.userVips.find? (fun v => v.userId == od.userId) = none →
        st2.userVips = st.userVips ++
          [{ userId := od.userId, totalDays := plan.days, startTime := now,
             endTime := some (now + plan.days) }]) ∧
      (∀ uv e, st.userVips.find? (fun v => v.userId == od.userId) = some uv →
        uv.endTime = some e → now < e →
        st2.userVips.find? (fun v => v.userId == od.userId) =
          some { uv with
                 totalDays := uv.totalDays + plan.days,
                 endTime := some (e + plan.days) }) ∧
      (∀ uv, st.userVips.find? (fun v => v.userId == od.userId) = some uv →
        (uv.endTime = none ∨ ∃ e, uv.endTime = some e ∧ e ≤ now) →
        st2.userVips.find? (fun v => v.userId == od.userId) =
          some { uv with
                 totalDays := uv.totalDays + plan.days,
                 startTime := now, endTime := some (now + plan.days) }) := by
  have hk : ∀ v : UserVIP,
      ((vipApply plan.days now v).userId == od.userId) =
        (v.userId == od.userId) := by
    intro v
    rw [vipApply_userId]
  unfold vipHandle
  rw [hprod]
  dsimp only
  rw [hsku]
  dsimp only
  rw [hvp]
  dsimp only
  rw [if_neg (by omega : ¬ planId ≤ 0)]
  rw [hplan]
  dsimp only
  cases hfv : st.userVips.find? (fun v => v.userId == od.userId) with
  | none =>
    refine ⟨_, rfl, ?_, ?_, ?_⟩
    · intro _; rfl
    · intro uv e huv; cases huv
    · intro uv huv; cases huv
  | some uv0 =>
    refine ⟨_, rfl, ?_, ?_, ?_⟩
    · intro h; cases h
    · intro uv e huv he hnow
      injection huv with huv
      subst huv
      dsimp only
      rw [find?_updateWhere st.userVips _ _ hk, hfv]
      dsimp only [Option.map]
      unfold vipApply
      rw [he]
      dsimp only
      rw [if_pos hnow]
      rfl
    · intro uv huv hcase
      injection huv with huv
      subst huv
      dsimp only
      rw [find?_updateWhere st.userVips _ _ hk, hfv]
      dsimp only [Option.map]
      unfold vipApply
      rcases hcase with he | ⟨e, he, hle⟩
      · rw [he]
        rfl
      · rw [he]
        dsimp only
        rw [if_neg (by omega : ¬ now < e)]
        rfl

/-- A VIP SKU linked to plan 2. -/
def c6Sku : SkuInfo :=
  { id := 7, productId := 3, vipPlanId := some 2,
    designLicensePlanId := none, designId := none }

/-- A VIP product holding `c6Sku`. -/
def c6Product : ProductInfo :=
  { id := 3, name := "vip card", productType := "vip", isPublished := true,
    skus := [c6Sku] }

/-- A thirty-day VIP plan. -/
def c6Plan : VIPPlan := { id := 2, name := "month", days := 30 }

/-- A membership with ten remaining days at time 0. -/
def c6Vip : UserVIP :=
  { userId := 5, totalDays := 10, startTime := 0, endTime := some 10 }

/-- State for the VIP stacking example. -/
def c6State : AppState :=
  { payments := [], orders := [], products := [c6Product],
    vipPlans := [c6Plan], userVips := [c6Vip], licensePlans := [],
    licenses := [], designs := [] }

/-- The purchased VIP order item. -/
def c6Item : OrderItemRec :=
  { id := 1, orderId := 1, itemType := "vip", productId := 3,
    skuId := some 7 }

/-- Witness for claim C6: a buyer with ten remaining days buying the
thirty-day plan ends with forty remaining days and forty cumulative days. -/
theorem vip_handle_spec_witness :
    ∃ st2, vipHandle samplePendingOrder c6Item 0 c6State = .ok st2 ∧
      st2.userVips.find? (fun v => v.userId == samplePendingOrder.userId) =
        some { userId := 5, totalDays := 40, startTime := 0,
               endTime := some 40 } := by
  obtain ⟨st2, hok, h1, h2, h3⟩ :=
    vip_handle_spec samplePendingOrder c6Item 0 c6State c6Product c6Sku 2
      c6Plan rfl rfl rfl (by decide) rfl
  exact ⟨st2, hok, h2 c6Vip 10 rfl rfl (by decide)⟩

/-- The SKU of a design product: it links design 9 and license plan 2. -/
def c5Sku : SkuInfo :=
  { id := 7, productId := 3, vipPlanId := none,
    designLicensePlanId := some 2, designId := some 9 }

/-- A design product holding `c5Sku`. -/
def c5Product : ProductInfo :=
  { id := 3, name := "art", productType := "design", isPublished := true,
    skus := [c5Sku] }

/-- A buyout license plan. -/
def c5Plan : DesignLicensePlan := { id := 2, licenseType := LicenseType.buyout }

/-- The purchased DESIGN order item. -/
def c5Item : OrderItemRec :=
  { id := 1, orderId := 1, itemType := "design", productId := 3,
    skuId := some 7 }

/-- State for the design fulfillment run: product, plan and design all
resolve. -/
def c5State : AppState :=
  { payments := [], orders := [], products := [c5Product], vipPlans := [],
    userVips := [], licensePlans := [c5Plan], licenses := [],
    designs := [{ id := 9, userId := 6, productId := some 3,
                  state := DesignState.approved }] }

/-- Claim C5 run on the code as written: with product, SKU and license plan
all resolvable, the design fulfillment handler raises an AttributeError
inside `bind_license` — the call site passes the integer `sku.design_id`
where `bind_license` expects the SKU object — so no license-binding row is
created and no design is bought out. -/
theorem design_handle_attribute_error_c5 :
    designHandle samplePendingOrder c5Item c5State =
      .error "AttributeError: int object has no attribute design_id" := rfl

/-- `PREPAY_ID_CACHE_EXPIRE` from the webhook module: the prepay payment
parameters are cached for a fixed 30 minutes. -/
def PREPAY_ID_CACHE_EXPIRE : Nat := 30

/-- The caching skeleton of `create_wechat_payment` around the upstream
prepay call, under the per-(user, order) lock: a cache hit returns the
cached payment parameters without calling upstream; a miss calls upstream
and stores the result with the fixed TTL.  Components: the response, whether
a new upstream prepay session was created, and the cache write with its TTL
in minutes. -/
def createPaymentCacheStep (cached : Option α) (fresh : α) :
    α × Bool × Option (α × Nat) :=
  match cached with
  | some d => (d, false, none)
  | none => (fresh, true, some (fresh, PREPAY_ID_CACHE_EXPIRE))

/-- Modelled from the spec sentence of claim C7: the time-to-live it claims,
namely the order's remaining validity window, `expireTime` minus `now`. -/
def specClaimedPrepayTtl (expireTime now : Nat) : Nat := expireTime - now

/-- A concrete run refuting claim C7 as stated: the cache write uses the
fixed 30-minute TTL, which differs from the remaining validity window of an
order expiring 15 minutes from now. -/
theorem prepay_cache_ttl_c7_counterexample :
    (createPaymentCacheStep (none : Option String) "pay").2.2 =
      some ("pay", PREPAY_ID_CACHE_EXPIRE) ∧
    specClaimedPrepayTtl 40 25 = 15 ∧
    PREPAY_ID_CACHE_EXPIRE ≠ specClaimedPrepayTtl 40 25 :=
  ⟨rfl, rfl, by decide⟩

/-- Claim C7 (amended): under the per-(user, order) lock the prepay payment
parameters are cached with a fixed TTL of 30 minutes (the configured order
lifetime at creation), not the order's remaining validity window; a call
that hits the cache returns the identical cached session and creates no
second upstream prepay session, and a miss creates one and caches it with
that fixed TTL. -/
theorem prepay_cache_step_spec (cached : Option α) (fresh : α) :
    (∀ d, cached = some d →
      createPaymentCacheStep cached fresh = (d, false, none)) ∧
    (cached = none →
      createPaymentCacheStep cached fresh =
        (fresh, true, some (fresh, PREPAY_ID_CACHE_EXPIRE))) := by
  constructor
  · intro d hd
    subst hd
    rfl
  · intro hd
    subst hd
    rfl

/-- Witness for claim C7 (amended form): a concrete cache hit returns the
cached session with no upstream creation. -/
theorem prepay_cache_step_spec_witness :
    createPaymentCacheStep (some "sess") "fresh" = ("sess", false, none) :=
  (prepay_cache_step_spec (some "sess") "fresh").1 "sess" rfl

/-- `WechatPayUtils.decrypt_callback_resource`, with the library primitives
it calls taken as parameters: the base64 decoder, the AES-256-GCM
decrypt-and-verify primitive (key, nonce, associated data, body, tag;
`none` means tag verification failed), and the JSON parser.  Bytes are
lists of naturals.  The key is the configured API key's raw UTF-8 bytes and
must be exactly 32 bytes; the trailing 16 bytes of the decoded ciphertext
are the authentication tag. -/
def decryptCallbackResource
    (b64decode : String → Except String (List Nat))
    (gcm : List Nat → List Nat → List Nat → List Nat → List Nat →
      Option (List Nat))
    (jsonParse : List Nat → Option α)
    (apiKeyBytes : List Nat) (ciphertext : String)
    (nonceBytes aadBytes : List Nat) : Except String α :=
  if apiKeyBytes.length ≠ 32 then
    .error "API key must be 32 bytes"
  else
    match b64decode ciphertext with
    | .error e => .error e
    | .ok ctBytes =>
      if ctBytes.length < 16 then
        .error "ciphertext too short to hold the auth tag"
      else
        let tag := ctBytes.drop (ctBytes.length - 16)
        let encryptedData := ctBytes.take (ctBytes.length - 16)
        match gcm apiKeyBytes nonceBytes aadBytes encryptedData tag with
        | none => .error "MAC verification failed"
        | some plaintext =>
          match jsonParse plaintext with
          | none => .error "JSON parse error"
          | some result => .ok result

/-- Claim C4: `decrypt_callback_resource` errors whenever the key is not
exactly 32 bytes, whenever the decoded ciphertext is shorter than the
16-byte tag, and whenever tag verification fails; and whenever it returns a
result, the key had 32 bytes and AES-256-GCM verified the tag over the
split into a trailing 16-byte tag and the preceding encrypted body. -/
theorem decrypt_callback_resource_spec
    (b64decode : String → Except String (List Nat))
    (gcm : List Nat → List Nat → List Nat → List Nat → List Nat →
      Option (List Nat))
    (jsonParse : List Nat → Option α)
    (apiKeyBytes : List Nat) (ciphertext : String)
    (nonceBytes aadBytes : List Nat) :
    (apiKeyBytes.length ≠ 32 →
      decryptCallbackResource b64decode gcm jsonParse apiKeyBytes ciphertext
        nonceBytes aadBytes = .error "API key must be 32 bytes") ∧
    (∀ ctBytes, apiKeyBytes.length = 32 → b64decode ciphertext = .ok ctBytes →
      ctBytes.length < 16 →
      decryptCallbackResource b64decode gcm jsonParse apiKeyBytes ciphertext
        nonceBytes aadBytes = .error "ciphertext too short to hold the auth tag") ∧
    (∀ ctBytes, apiKeyBytes.length = 32 → b64decode ciphertext = .ok ctBytes →
      16 ≤ ctBytes.length →
      gcm apiKeyBytes nonceBytes aadBytes (ctBytes.take (ctBytes.length - 16))
        (ctBytes.drop (ctBytes.length - 16)) = none →
      decryptCallbackResource b64decode gcm jsonParse apiKeyBytes ciphertext
        nonceBytes aadBytes = .error "MAC verification failed") ∧
    (∀ result,
      decryptCallbackResource b64decode gcm jsonParse apiKeyBytes ciphertext
        nonceBytes aadBytes = .ok result →
      apiKeyBytes.length = 32 ∧
      ∃ ctBytes plaintext, b64decode ciphertext = .ok ctBytes ∧
        16 ≤ ctBytes.length ∧
        gcm apiKeyBytes nonceBytes aadBytes
          (ctBytes.take (ctBytes.length - 16))
          (ctBytes.drop (ctBytes.length - 16)) = some plaintext ∧
        jsonParse plaintext = some result) := by
  refine ⟨?_, ?_, ?_, ?_⟩
  · intro hk
    unfold decryptCallbackResource
    rw [if_pos hk]
  · intro ctBytes hk hb hlen
    unfold decryptCallbackResource
    rw [if_neg (by omega : ¬ apiKeyBytes.length ≠ 32), hb]
    dsimp only
    rw [if_pos hlen]
  · intro ctBytes hk hb hlen hgcm
    unfold decryptCallbackResource
    rw [if_neg (by omega : ¬ apiKeyBytes.length ≠ 32), hb]
    dsimp only
    rw [if_neg (by omega : ¬ ctBytes.length < 16)]
    rw [hgcm]
  · intro result h
    unfold decryptCallbackResource at h
    by_cases hk : apiKeyBytes.length ≠ 32
    · rw [if_pos hk] at h
      cases h
    · rw [if_neg hk] at h
      refine ⟨by omega, ?_⟩
      cases hb : b64decode ciphertext with
      | error e =>
        rw [hb] at h
        cases h
      | ok ctBytes =>
        rw [hb] at h
        dsimp only at h
        by_cases hlen : ctBytes.length < 16
        · rw [if_pos hlen] at h
          cases h
        · rw [if_neg hlen] at h
          cases hgcm : gcm apiKeyBytes nonceBytes aadBytes
              (ctBytes.take (ctBytes.length - 16))
              (ctBytes.drop (ctBytes.length - 16)) with
          | none =>
            rw [hgcm] at h
            cases h
          | some plaintext =>
            rw [hgcm] at h
            dsimp only at h
            cases hj : jsonParse plaintext with
            | none =>
              rw [hj] at h
              cases h
            | some r =>
              rw [hj] at h
              injection h with h
              subst h
              exact ⟨ctBytes, plaintext, rfl, by omega, hgcm, hj⟩

/-- Witness for claim C4: a 31-byte key is rejected for concrete oracle
instantiations. -/
theorem decrypt_callback_resource_spec_witness :
    decryptCallbackResource (fun _ => .ok (List.replicate 20 0))
      (fun _ _ _ _ _ => some [48]) (fun _ => some (0 : Nat))
      (List.replicate 31 0) "ct" [] [] = .error "API key must be 32 bytes" :=
  (decrypt_callback_resource_spec (fun _ => .ok (List.replicate 20 0))
    (fun _ _ _ _ _ => some [48]) (fun _ => some (0 : Nat))
    (List.replicate 31 0) "ct" [] []).1 (by decide)

end Mgkw
